import Mathlib

/-!
Verification of the ProfileStore state container
(`src/contexts/user-context.tsx` of the health-tracker repository).

The file shallowly embeds the data model (`UserProfile` and its
sub-records), the six mutation operations of the provider, the
initialization protocol, and the storage encoding, and proves the
spec's testable properties about them.

Modelling conventions:
- TypeScript optional fields (`endDate?`, `notes?`) become `Option`.
- `Partial<T>` patch arguments become structures whose every field is an
  `Option`; the JS object spread `{ ...prev, ...patch }` picks the patch
  field when present, the previous field otherwise.
- The provider state `user` is `Option UserProfile` (`null` is `none`);
  each mutation is the pure function passed to `setUser`.
- JS numbers occurring in the data (goal targets, vital values) are
  integers in all observed data and are modelled as `Int`.
-/

/-- An entry of `currentMedications` (source lines 21–29). -/
structure Medication where
  id : String
  name : String
  dosage : String
  frequency : String
  startDate : String
  endDate : Option String
  instructions : String
deriving DecidableEq, Repr

/-- An entry of `healthGoals` (source lines 30–36). -/
structure HealthGoal where
  id : String
  type : String
  target : Int
  current : Int
  unit : String
deriving DecidableEq, Repr

/-- An entry of `vitalSigns` (source lines 37–44). -/
structure VitalSign where
  id : String
  type : String
  value : Int
  unit : String
  date : String
  time : String
deriving DecidableEq, Repr

/-- An entry of `appointments` (source lines 45–54). -/
structure Appointment where
  id : String
  doctorName : String
  specialty : String
  date : String
  time : String
  type : String
  status : String
  notes : Option String
deriving DecidableEq, Repr

/-- The `UserProfile` interface (source lines 5–55). -/
structure UserProfile where
  firstName : String
  lastName : String
  email : String
  phone : String
  dateOfBirth : String
  gender : String
  address : String
  emergencyContact : String
  medicalConditions : String
  allergies : String
  bloodType : String
  height : String
  weight : String
  language : String
  notifications : Bool
  currentMedications : List Medication
  healthGoals : List HealthGoal
  vitalSigns : List VitalSign
  appointments : List Appointment
deriving DecidableEq, Repr

/-- `Partial<UserProfile>`: every field optionally present. -/
structure PartialProfile where
  firstName : Option String := none
  lastName : Option String := none
  email : Option String := none
  phone : Option String := none
  dateOfBirth : Option String := none
  gender : Option String := none
  address : Option String := none
  emergencyContact : Option String := none
  medicalConditions : Option String := none
  allergies : Option String := none
  bloodType : Option String := none
  height : Option String := none
  weight : Option String := none
  language : Option String := none
  notifications : Option Bool := none
  currentMedications : Option (List Medication) := none
  healthGoals : Option (List HealthGoal) := none
  vitalSigns : Option (List VitalSign) := none
  appointments : Option (List Appointment) := none
deriving Repr

/-- `Partial<UserProfile["healthGoals"][0]>`: the patch taken by
`updateHealthGoal`. -/
structure PartialHealthGoal where
  id : Option String := none
  type : Option String := none
  target : Option Int := none
  current : Option Int := none
  unit : Option String := none
deriving Repr

/-- `defaultUser` (source lines 70–125), transcribed field by field. -/
def defaultUser : UserProfile where
  firstName := "Alex"
  lastName := "Johnson"
  email := "alex.johnson@email.com"
  phone := "+1 (555) 123-4567"
  dateOfBirth := "1990-05-15"
  gender := "male"
  address := "123 Health St, Wellness City, WC 12345"
  emergencyContact := "Jane Johnson - +1 (555) 987-6543"
  medicalConditions := "Hypertension, Type 2 Diabetes"
  allergies := "Penicillin, Shellfish"
  bloodType := "A+"
  height := "5\x2710\""
  weight := "175 lbs"
  language := "en"
  notifications := true
  currentMedications :=
    [{ id := "1", name := "Lisinopril", dosage := "10mg", frequency := "Once daily",
       startDate := "2024-01-15", endDate := none,
       instructions := "Take with food in the morning" },
     { id := "2", name := "Metformin", dosage := "500mg", frequency := "Twice daily",
       startDate := "2024-01-15", endDate := none,
       instructions := "Take with meals" }]
  healthGoals :=
    [{ id := "1", type := "water", target := 8, current := 5, unit := "glasses" },
     { id := "2", type := "steps", target := 10000, current := 7500, unit := "steps" },
     { id := "3", type := "weight", target := 170, current := 175, unit := "lbs" }]
  vitalSigns :=
    [{ id := "1", type := "blood_pressure", value := 125, unit := "mmHg",
       date := "2024-01-20", time := "08:00" },
     { id := "2", type := "heart_rate", value := 72, unit := "bpm",
       date := "2024-01-20", time := "08:00" },
     { id := "3", type := "blood_sugar", value := 110, unit := "mg/dL",
       date := "2024-01-20", time := "08:00" }]
  appointments :=
    [{ id := "1", doctorName := "Dr. Sarah Wilson", specialty := "Cardiologist",
       date := "2024-01-25", time := "10:00 AM", type := "Follow-up",
       status := "scheduled", notes := none }]

/-- `updateUser` (source lines 154–156): the updater passed to `setUser`,
`prev ? { ...prev, ...updates } : null`.  The spread keeps each field of
`prev` unless `updates` carries that field. -/
def updateUser (updates : PartialProfile) (prev : Option UserProfile) :
    Option UserProfile :=
  match prev with
  | some p => some
      { firstName := updates.firstName.getD p.firstName
        lastName := updates.lastName.getD p.lastName
        email := updates.email.getD p.email
        phone := updates.phone.getD p.phone
        dateOfBirth := updates.dateOfBirth.getD p.dateOfBirth
        gender := updates.gender.getD p.gender
        address := updates.address.getD p.address
        emergencyContact := updates.emergencyContact.getD p.emergencyContact
        medicalConditions := updates.medicalConditions.getD p.medicalConditions
        allergies := updates.allergies.getD p.allergies
        bloodType := updates.bloodType.getD p.bloodType
        height := updates.height.getD p.height
        weight := updates.weight.getD p.weight
        language := updates.language.getD p.language
        notifications := updates.notifications.getD p.notifications
        currentMedications := updates.currentMedications.getD p.currentMedications
        healthGoals := updates.healthGoals.getD p.healthGoals
        vitalSigns := updates.vitalSigns.getD p.vitalSigns
        appointments := updates.appointments.getD p.appointments }
  | none => none

/-- `addMedication` (source lines 158–167): append to `currentMedications`. -/
def addMedication (medication : Medication) (prev : Option UserProfile) :
    Option UserProfile :=
  match prev with
  | some p => some { p with currentMedications := p.currentMedications ++ [medication] }
  | none => none

/-- `removeMedication` (source lines 169–178):
`currentMedications.filter((med) => med.id !== medicationId)`. -/
def removeMedication (medicationId : String) (prev : Option UserProfile) :
    Option UserProfile :=
  match prev with
  | some p => some
      { p with currentMedications :=
          p.currentMedications.filter (fun med => med.id != medicationId) }
  | none => none

/-- `addVitalSign` (source lines 180–189): append to `vitalSigns`. -/
def addVitalSign (vitalSign : VitalSign) (prev : Option UserProfile) :
    Option UserProfile :=
  match prev with
  | some p => some { p with vitalSigns := p.vitalSigns ++ [vitalSign] }
  | none => none

/-- `addAppointment` (source lines 191–200): append to `appointments`. -/
def addAppointment (appointment : Appointment) (prev : Option UserProfile) :
    Option UserProfile :=
  match prev with
  | some p => some { p with appointments := p.appointments ++ [appointment] }
  | none => none

/-- The spread `{ ...goal, ...updates }` inside `updateHealthGoal`
(source line 207). -/
def mergeGoal (goal : HealthGoal) (updates : PartialHealthGoal) : HealthGoal where
  id := updates.id.getD goal.id
  type := updates.type.getD goal.type
  target := updates.target.getD goal.target
  current := updates.current.getD goal.current
  unit := updates.unit.getD goal.unit

/-- `updateHealthGoal` (source lines 202–211):
`healthGoals.map((goal) => (goal.id === goalId ? { ...goal, ...updates } : goal))`. -/
def updateHealthGoal (goalId : String) (updates : PartialHealthGoal)
    (prev : Option UserProfile) : Option UserProfile :=
  match prev with
  | some p => some
      { p with healthGoals :=
          p.healthGoals.map fun goal =>
            if goal.id == goalId then mergeGoal goal updates else goal }
  | none => none

/-!
Storage layer.  The provider persists the profile with the host
primitives `JSON.stringify` / `JSON.parse` under the `localStorage` key
`"healthTracker_user"`.  Those primitives are platform code, not
repository code, so they are modelled at the JSON value level: `Json`
is the domain of parsed JSON texts (JS numbers restricted to the
integer fragment actually occurring in the data), a stored text is
represented by the outcome of `JSON.parse` on it, and
`JSON.stringify` of a plain-data object is the identity on its `Json`
value.
-/

/-- A parsed JSON value: the plain scalar/array/object encodings of §6
of the spec. -/
inductive Json where
  | null
  | bool (b : Bool)
  | num (n : Int)
  | str (s : String)
  | arr (elems : List Json)
  | obj (fields : List (String × Json))
deriving Repr

/-- Modelled from the spec: the text-serialized encoding of a
`Medication` (`JSON.stringify` at the value level; an absent optional
field is omitted, exactly as `stringify` drops `undefined`). -/
def encodeMedication (m : Medication) : Json :=
  .obj ([("id", .str m.id), ("name", .str m.name), ("dosage", .str m.dosage),
         ("frequency", .str m.frequency), ("startDate", .str m.startDate)]
        ++ (match m.endDate with
            | some e => [("endDate", Json.str e)]
            | none => [])
        ++ [("instructions", .str m.instructions)])

/-- Modelled from the spec: the encoding of a `HealthGoal`. -/
def encodeHealthGoal (g : HealthGoal) : Json :=
  .obj [("id", .str g.id), ("type", .str g.type), ("target", .num g.target),
        ("current", .num g.current), ("unit", .str g.unit)]

/-- Modelled from the spec: the encoding of a `VitalSign`. -/
def encodeVitalSign (v : VitalSign) : Json :=
  .obj [("id", .str v.id), ("type", .str v.type), ("value", .num v.value),
        ("unit", .str v.unit), ("date", .str v.date), ("time", .str v.time)]

/-- Modelled from the spec: the encoding of an `Appointment`. -/
def encodeAppointment (a : Appointment) : Json :=
  .obj ([("id", .str a.id), ("doctorName", .str a.doctorName),
         ("specialty", .str a.specialty), ("date", .str a.date),
         ("time", .str a.time), ("type", .str a.type), ("status", .str a.status)]
        ++ (match a.notes with
            | some n => [("notes", Json.str n)]
            | none => []))

/-- Modelled from the spec: the full `UserProfile` encoding written to
storage (`JSON.stringify(user)`, source line 150, at the value level). -/
def encodeProfile (p : UserProfile) : Json :=
  .obj [("firstName", .str p.firstName), ("lastName", .str p.lastName),
        ("email", .str p.email), ("phone", .str p.phone),
        ("dateOfBirth", .str p.dateOfBirth), ("gender", .str p.gender),
        ("address", .str p.address), ("emergencyContact", .str p.emergencyContact),
        ("medicalConditions", .str p.medicalConditions), ("allergies", .str p.allergies),
        ("bloodType", .str p.bloodType), ("height", .str p.height),
        ("weight", .str p.weight), ("language", .str p.language),
        ("notifications", .bool p.notifications),
        ("currentMedications", .arr (p.currentMedications.map encodeMedication)),
        ("healthGoals", .arr (p.healthGoals.map encodeHealthGoal)),
        ("vitalSigns", .arr (p.vitalSigns.map encodeVitalSign)),
        ("appointments", .arr (p.appointments.map encodeAppointment))]

/-- Read a JSON string. -/
def asStr : Json → Option String
  | .str s => some s
  | _ => none

/-- Read a JSON integer. -/
def asNum : Json → Option Int
  | .num n => some n
  | _ => none

/-- Read a JSON boolean. -/
def asBool : Json → Option Bool
  | .bool b => some b
  | _ => none

/-- Look up a required field of a JSON object and read it with `rd`. -/
def field (fields : List (String × Json)) (key : String) (rd : Json → Option α) :
    Option α :=
  (fields.lookup key).bind rd

/-- Modelled from the spec: deserializing one `Medication` from its
stored value (value-level reading of §3's record shape). -/
def decodeMedication : Json → Option Medication
  | .obj fs => do
    let id ← field fs "id" asStr
    let name ← field fs "name" asStr
    let dosage ← field fs "dosage" asStr
    let frequency ← field fs "frequency" asStr
    let startDate ← field fs "startDate" asStr
    let instructions ← field fs "instructions" asStr
    pure { id, name, dosage, frequency, startDate,
           endDate := field fs "endDate" asStr, instructions }
  | _ => none

/-- Modelled from the spec: deserializing one `HealthGoal`. -/
def decodeHealthGoal : Json → Option HealthGoal
  | .obj fs => do
    let id ← field fs "id" asStr
    let type ← field fs "type" asStr
    let target ← field fs "target" asNum
    let current ← field fs "current" asNum
    let unit ← field fs "unit" asStr
    pure { id, type, target, current, unit }
  | _ => none

/-- Modelled from the spec: deserializing one `VitalSign`. -/
def decodeVitalSign : Json → Option VitalSign
  | .obj fs => do
    let id ← field fs "id" asStr
    let type ← field fs "type" asStr
    let value ← field fs "value" asNum
    let unit ← field fs "unit" asStr
    let date ← field fs "date" asStr
    let time ← field fs "time" asStr
    pure { id, type, value, unit, date, time }
  | _ => none

/-- Modelled from the spec: deserializing one `Appointment`. -/
def decodeAppointment : Json → Option Appointment
  | .obj fs => do
    let id ← field fs "id" asStr
    let doctorName ← field fs "doctorName" asStr
    let specialty ← field fs "specialty" asStr
    let date ← field fs "date" asStr
    let time ← field fs "time" asStr
    let type ← field fs "type" asStr
    let status ← field fs "status" asStr
    pure { id, doctorName, specialty, date, time, type, status,
           notes := field fs "notes" asStr }
  | _ => none

/-- Read every element of a JSON list with `rd`; fail if any element
fails. -/
def decodeList (rd : Json → Option α) : List Json → Option (List α)
  | [] => some []
  | j :: js =>
    match rd j, decodeList rd js with
    | some x, some xs => some (x :: xs)
    | _, _ => none

/-- Read a JSON array element-wise with `rd`. -/
def asArr (rd : Json → Option α) : Json → Option (List α)
  | .arr xs => decodeList rd xs
  | _ => none

/-- Modelled from the spec: deserializing a full `UserProfile` from a
stored JSON value (§6's round-trip contract names this direction
`deserialize`; the repository performs it as `JSON.parse`, whose result
the surrounding TypeScript treats as a `UserProfile` of exactly this
shape). -/
def decodeProfile : Json → Option UserProfile
  | .obj fs =>
    match field fs "firstName" asStr, field fs "lastName" asStr,
          field fs "email" asStr, field fs "phone" asStr,
          field fs "dateOfBirth" asStr, field fs "gender" asStr,
          field fs "address" asStr, field fs "emergencyContact" asStr,
          field fs "medicalConditions" asStr, field fs "allergies" asStr,
          field fs "bloodType" asStr, field fs "height" asStr,
          field fs "weight" asStr, field fs "language" asStr,
          field fs "notifications" asBool,
          field fs "currentMedications" (asArr decodeMedication),
          field fs "healthGoals" (asArr decodeHealthGoal),
          field fs "vitalSigns" (asArr decodeVitalSign),
          field fs "appointments" (asArr decodeAppointment) with
    | some firstName, some lastName, some email, some phone, some dateOfBirth,
      some gender, some address, some emergencyContact, some medicalConditions,
      some allergies, some bloodType, some height, some weight, some language,
      some notifications, some currentMedications, some healthGoals,
      some vitalSigns, some appointments =>
        some { firstName, lastName, email, phone, dateOfBirth, gender, address,
               emergencyContact, medicalConditions, allergies, bloodType, height,
               weight, language, notifications, currentMedications, healthGoals,
               vitalSigns, appointments }
    | _, _, _, _, _, _, _, _, _, _, _, _, _, _, _, _, _, _, _ => none
  | _ => none

/-!
Initialization (source lines 131–145).  `localStorage.getItem` yields
`none` when no value is stored.  A present stored text is represented
by what `JSON.parse` does with it: `malformed` when the parse throws
(the text is not syntactically valid JSON — the `catch` branch),
`wellFormed j` when it parses to the value `j`.
-/

/-- The outcome of the host `JSON.parse` on a stored text. -/
inductive StoredText where
  | malformed
  | wellFormed (j : Json)

/-- The provider's state after the initial-load effect: the value passed
to `setUser` (an untyped JS value, hence a `Json`) and `isLoading`. -/
structure ProviderState where
  user : Option Json
  isLoading : Bool

/-- The initial-load effect (source lines 131–145): if a stored value
exists, `setUser(JSON.parse(savedUser))`, falling back to `defaultUser`
when the parse throws; otherwise `setUser(defaultUser)`; then
`setIsLoading(false)`. -/
def loadUser (savedUser : Option StoredText) : ProviderState :=
  match savedUser with
  | some (.wellFormed j) => { user := some j, isLoading := false }
  | some .malformed => { user := some (encodeProfile defaultUser), isLoading := false }
  | none => { user := some (encodeProfile defaultUser), isLoading := false }

/-- The context value (source lines 57–66); the mutation closures are
modelled by the top-level functions above, so the record keeps the data
fields. -/
structure UserContextType where
  user : Option UserProfile
  isLoading : Bool

/-- `useUser` (source lines 231–237): `useContext` yields `none` outside
any `UserProvider`; in that case the hook throws. -/
def useUser (context : Option UserContextType) : Except String UserContextType :=
  match context with
  | none => .error "useUser must be used within a UserProvider"
  | some c => .ok c

/-!
Helper lemmas for the round-trip property.
-/

/-- Each sub-record decoder inverts its encoder: medications. -/
theorem decodeMedication_encode (m : Medication) :
    decodeMedication (encodeMedication m) = some m := by
  cases m with
  | mk id name dosage frequency startDate endDate instructions =>
    cases endDate <;> rfl

/-- Each sub-record decoder inverts its encoder: health goals. -/
theorem decodeHealthGoal_encode (g : HealthGoal) :
    decodeHealthGoal (encodeHealthGoal g) = some g := by
  cases g with
  | mk id ty ta cu un => rfl

/-- Each sub-record decoder inverts its encoder: vital signs. -/
theorem decodeVitalSign_encode (v : VitalSign) :
    decodeVitalSign (encodeVitalSign v) = some v := by
  cases v with
  | mk id ty va un da ti => rfl

/-- Each sub-record decoder inverts its encoder: appointments. -/
theorem decodeAppointment_encode (a : Appointment) :
    decodeAppointment (encodeAppointment a) = some a := by
  cases a with
  | mk id dn sp da ti ty st no => cases no <;> rfl

/-- Element-wise decoding inverts element-wise encoding. -/
theorem decodeList_encode {α : Type} {rd : Json → Option α} {enc : α → Json}
    (h : ∀ x, rd (enc x) = some x) :
    ∀ xs : List α, decodeList rd (xs.map enc) = some xs
  | [] => rfl
  | x :: xs => by
      simp [decodeList, h x, decodeList_encode h xs]

/-- The scalar (non-sequence) fields of two profiles agree. -/
abbrev scalarFieldsEq (a b : UserProfile) : Prop :=
  a.firstName = b.firstName ∧ a.lastName = b.lastName ∧ a.email = b.email ∧
  a.phone = b.phone ∧ a.dateOfBirth = b.dateOfBirth ∧ a.gender = b.gender ∧
  a.address = b.address ∧ a.emergencyContact = b.emergencyContact ∧
  a.medicalConditions = b.medicalConditions ∧ a.allergies = b.allergies ∧
  a.bloodType = b.bloodType ∧ a.height = b.height ∧ a.weight = b.weight ∧
  a.language = b.language ∧ a.notifications = b.notifications

/-!
The claims.
-/

/-- C1 (amended): initialization falls back to the hardcoded default
profile exactly when the stored text fails to parse (`JSON.parse`
throws) or no value is stored, and no exception escapes (the load step
is a total function); a stored text that parses to any JSON value at
all — even one that is not a valid profile encoding — is installed
as-is.  In every case `isLoading` ends up `false`. -/
theorem init_malformed_fallback :
    (loadUser (some .malformed)).user = some (encodeProfile defaultUser) ∧
    (loadUser (some .malformed)).isLoading = false ∧
    (loadUser none).user = some (encodeProfile defaultUser) ∧
    (loadUser none).isLoading = false ∧
    ∀ j : Json, (loadUser (some (.wellFormed j))).user = some j ∧
      (loadUser (some (.wellFormed j))).isLoading = false :=
  ⟨rfl, rfl, rfl, rfl, fun _ => ⟨rfl, rfl⟩⟩

/-- C1 (counterexample to the claim as stated): the stored text `"{}"`
is syntactically valid JSON but not a valid serialization of any
profile (`decodeProfile` rejects the empty object), yet initialization
installs the empty object instead of the hardcoded default profile —
the `catch` fires only when `JSON.parse` throws, never on a
wrong-shape value. -/
theorem init_wrong_shape_counterexample :
    decodeProfile (Json.obj []) = none ∧
    (loadUser (some (.wellFormed (Json.obj [])))).user = some (Json.obj []) ∧
    (loadUser (some (.wellFormed (Json.obj [])))).user ≠
      some (encodeProfile defaultUser) := by
  refine ⟨rfl, rfl, ?_⟩
  simp [loadUser, encodeProfile]

/-- C2: serialization round-trip — deserializing the serialized
encoding of any valid profile `p` yields exactly `p` again. -/
theorem serialize_deserialize_roundtrip (p : UserProfile) :
    decodeProfile (encodeProfile p) = some p := by
  cases p with
  | mk fn ln em ph dob ge ad ec mc al bt he we la no cm hgl vs ap =>
    simp [encodeProfile, decodeProfile, field, List.lookup, asStr, asBool, asArr,
      decodeList_encode decodeMedication_encode cm,
      decodeList_encode decodeHealthGoal_encode hgl,
      decodeList_encode decodeVitalSign_encode vs,
      decodeList_encode decodeAppointment_encode ap]

/-- C3: `updateUser` shallow-merges exactly the fields present in the
patch into the current profile: a field carried by the patch takes the
patch's value, every field not named in the patch keeps its previous
value. -/
theorem updateUser_shallow_merge (p : UserProfile) (u : PartialProfile) :
    ∃ p2, updateUser u (some p) = some p2 ∧
      (u.firstName = none → p2.firstName = p.firstName) ∧
      (∀ v, u.firstName = some v → p2.firstName = v) ∧
      (u.lastName = none → p2.lastName = p.lastName) ∧
      (∀ v, u.lastName = some v → p2.lastName = v) ∧
      (u.email = none → p2.email = p.email) ∧
      (∀ v, u.email = some v → p2.email = v) ∧
      (u.phone = none → p2.phone = p.phone) ∧
      (∀ v, u.phone = some v → p2.phone = v) ∧
      (u.dateOfBirth = none → p2.dateOfBirth = p.dateOfBirth) ∧
      (∀ v, u.dateOfBirth = some v → p2.dateOfBirth = v) ∧
      (u.gender = none → p2.gender = p.gender) ∧
      (∀ v, u.gender = some v → p2.gender = v) ∧
      (u.address = none → p2.address = p.address) ∧
      (∀ v, u.address = some v → p2.address = v) ∧
      (u.emergencyContact = none → p2.emergencyContact = p.emergencyContact) ∧
      (∀ v, u.emergencyContact = some v → p2.emergencyContact = v) ∧
      (u.medicalConditions = none → p2.medicalConditions = p.medicalConditions) ∧
      (∀ v, u.medicalConditions = some v → p2.medicalConditions = v) ∧
      (u.allergies = none → p2.allergies = p.allergies) ∧
      (∀ v, u.allergies = some v → p2.allergies = v) ∧
      (u.bloodType = none → p2.bloodType = p.bloodType) ∧
      (∀ v, u.bloodType = some v → p2.bloodType = v) ∧
      (u.height = none → p2.height = p.height) ∧
      (∀ v, u.height = some v → p2.height = v) ∧
      (u.weight = none → p2.weight = p.weight) ∧
      (∀ v, u.weight = some v → p2.weight = v) ∧
      (u.language = none → p2.language = p.language) ∧
      (∀ v, u.language = some v → p2.language = v) ∧
      (u.notifications = none → p2.notifications = p.notifications) ∧
      (∀ v, u.notifications = some v → p2.notifications = v) ∧
      (u.currentMedications = none → p2.currentMedications = p.currentMedications) ∧
      (∀ v, u.currentMedications = some v → p2.currentMedications = v) ∧
      (u.healthGoals = none → p2.healthGoals = p.healthGoals) ∧
      (∀ v, u.healthGoals = some v → p2.healthGoals = v) ∧
      (u.vitalSigns = none → p2.vitalSigns = p.vitalSigns) ∧
      (∀ v, u.vitalSigns = some v → p2.vitalSigns = v) ∧
      (u.appointments = none → p2.appointments = p.appointments) ∧
      (∀ v, u.appointments = some v → p2.appointments = v) :=
  ⟨_, rfl,
    fun h => by simp [h], fun v h => by simp [h],
    fun h => by simp [h], fun v h => by simp [h],
    fun h => by simp [h], fun v h => by simp [h],
    fun h => by simp [h], fun v h => by simp [h],
    fun h => by simp [h], fun v h => by simp [h],
    fun h => by simp [h], fun v h => by simp [h],
    fun h => by simp [h], fun v h => by simp [h],
    fun h => by simp [h], fun v h => by simp [h],
    fun h => by simp [h], fun v h => by simp [h],
    fun h => by simp [h], fun v h => by simp [h],
    fun h => by simp [h], fun v h => by simp [h],
    fun h => by simp [h], fun v h => by simp [h],
    fun h => by simp [h], fun v h => by simp [h],
    fun h => by simp [h], fun v h => by simp [h],
    fun h => by simp [h], fun v h => by simp [h],
    fun h => by simp [h], fun v h => by simp [h],
    fun h => by simp [h], fun v h => by simp [h],
    fun h => by simp [h], fun v h => by simp [h],
    fun h => by simp [h], fun v h => by simp [h]⟩

/-- C4: `removeMedication` removes exactly the entries whose id equals
the given id: the result is a sublist of the old sequence (relative
order preserved), contains no entry with the given id, keeps every
occurrence of every other entry, and is the unchanged profile when no
entry matches. -/
theorem removeMedication_filters_by_id (p : UserProfile) (mid : String) :
    ∃ p2, removeMedication mid (some p) = some p2 ∧
      p2.currentMedications.Sublist p.currentMedications ∧
      (∀ m ∈ p2.currentMedications, m.id ≠ mid) ∧
      (∀ m : Medication, p2.currentMedications.count m =
        if m.id = mid then 0 else p.currentMedications.count m) ∧
      ((∀ m ∈ p.currentMedications, m.id ≠ mid) → p2 = p) := by
  refine ⟨_, rfl, List.filter_sublist _, ?_, ?_, ?_⟩
  · intro m hm
    simpa [bne_iff_ne] using List.of_mem_filter hm
  · intro m
    by_cases h : m.id = mid
    · rw [if_pos h, List.count_eq_zero]
      intro hm
      have := List.of_mem_filter hm
      simp [h] at this
    · rw [if_neg h]
      exact List.count_filter (by simp [bne_iff_ne, h])
  · intro h
    have hfil : p.currentMedications.filter (fun med => med.id != mid) =
        p.currentMedications :=
      List.filter_eq_self.mpr fun m hm => by simp [bne_iff_ne, h m hm]
    simp only [hfil]

/-- C5: `updateHealthGoal` is a no-op (the whole profile unchanged)
when no goal has the given id; when goals match, each matching entry
gets the patch shallow-merged in and every non-matching entry is left
unchanged in place. -/
theorem updateHealthGoal_missing_id_noop
    (p : UserProfile) (gid : String) (u : PartialHealthGoal) :
    ((∀ g ∈ p.healthGoals, g.id ≠ gid) →
      updateHealthGoal gid u (some p) = some p) ∧
    ∃ p2, updateHealthGoal gid u (some p) = some p2 ∧
      (∀ (i : Nat) (g : HealthGoal), p.healthGoals[i]? = some g → g.id ≠ gid →
        p2.healthGoals[i]? = some g) ∧
      (∀ (i : Nat) (g : HealthGoal), p.healthGoals[i]? = some g → g.id = gid →
        p2.healthGoals[i]? = some (mergeGoal g u)) := by
  constructor
  · intro h
    have hmap : p.healthGoals.map
        (fun goal => if goal.id == gid then mergeGoal goal u else goal) =
        p.healthGoals := by
      conv_rhs => rw [← List.map_id p.healthGoals]
      refine List.map_congr_left fun g hg => ?_
      simp [h g hg]
    simp only [updateHealthGoal, hmap]
  · refine ⟨_, rfl, ?_, ?_⟩
    · intro i g hg hne
      simp only [updateHealthGoal, List.getElem?_map, hg, Option.map_some']
      simp [hne]
    · intro i g hg heq
      simp only [updateHealthGoal, List.getElem?_map, hg, Option.map_some']
      simp [heq]

/-- C6: two successive `addVitalSign` calls append the two readings at
the end of `vitalSigns`, in call order, leaving the prefix intact. -/
theorem addVitalSign_appends_in_order
    (p : UserProfile) (v1 v2 : VitalSign) :
    ∃ p2, addVitalSign v2 (addVitalSign v1 (some p)) = some p2 ∧
      p2.vitalSigns = p.vitalSigns ++ [v1, v2] := by
  refine ⟨_, rfl, ?_⟩
  simp [addVitalSign]

/-- C7: calling the accessor outside the provider scope (the context is
absent) fails fast with an explicit error instead of yielding a default
value; inside the scope it returns the context unchanged. -/
theorem useUser_fails_fast_outside_provider :
    useUser none = .error "useUser must be used within a UserProvider" ∧
    ∀ c, useUser (some c) = .ok c :=
  ⟨rfl, fun _ => rfl⟩

/-- C8: every one of the six mutation operations leaves the state
unchanged (still unset) when the current profile is unset. -/
theorem mutations_noop_when_user_null :
    ∀ (u : PartialProfile) (m : Medication) (mid : String) (v : VitalSign)
      (a : Appointment) (gid : String) (gu : PartialHealthGoal),
      updateUser u none = none ∧
      addMedication m none = none ∧
      removeMedication mid none = none ∧
      addVitalSign v none = none ∧
      addAppointment a none = none ∧
      updateHealthGoal gid gu none = none :=
  fun _ _ _ _ _ _ _ => ⟨rfl, rfl, rfl, rfl, rfl, rfl⟩

/-- C9: frame property — each list mutation touches only its own target
sequence; all scalar fields and the other three sequences are returned
unchanged. -/
theorem list_mutations_frame
    (p : UserProfile) (m : Medication) (mid : String) (v : VitalSign)
    (a : Appointment) (gid : String) (gu : PartialHealthGoal) :
    (∃ p2, addMedication m (some p) = some p2 ∧ scalarFieldsEq p2 p ∧
      p2.healthGoals = p.healthGoals ∧ p2.vitalSigns = p.vitalSigns ∧
      p2.appointments = p.appointments) ∧
    (∃ p2, removeMedication mid (some p) = some p2 ∧ scalarFieldsEq p2 p ∧
      p2.healthGoals = p.healthGoals ∧ p2.vitalSigns = p.vitalSigns ∧
      p2.appointments = p.appointments) ∧
    (∃ p2, addVitalSign v (some p) = some p2 ∧ scalarFieldsEq p2 p ∧
      p2.currentMedications = p.currentMedications ∧
      p2.healthGoals = p.healthGoals ∧ p2.appointments = p.appointments) ∧
    (∃ p2, addAppointment a (some p) = some p2 ∧ scalarFieldsEq p2 p ∧
      p2.currentMedications = p.currentMedications ∧
      p2.healthGoals = p.healthGoals ∧ p2.vitalSigns = p.vitalSigns) ∧
    (∃ p2, updateHealthGoal gid gu (some p) = some p2 ∧ scalarFieldsEq p2 p ∧
      p2.currentMedications = p.currentMedications ∧
      p2.vitalSigns = p.vitalSigns ∧ p2.appointments = p.appointments) :=
  ⟨⟨_, rfl, ⟨rfl, rfl, rfl, rfl, rfl, rfl, rfl, rfl, rfl, rfl, rfl, rfl, rfl,
      rfl, rfl⟩, rfl, rfl, rfl⟩,
   ⟨_, rfl, ⟨rfl, rfl, rfl, rfl, rfl, rfl, rfl, rfl, rfl, rfl, rfl, rfl, rfl,
      rfl, rfl⟩, rfl, rfl, rfl⟩,
   ⟨_, rfl, ⟨rfl, rfl, rfl, rfl, rfl, rfl, rfl, rfl, rfl, rfl, rfl, rfl, rfl,
      rfl, rfl⟩, rfl, rfl, rfl⟩,
   ⟨_, rfl, ⟨rfl, rfl, rfl, rfl, rfl, rfl, rfl, rfl, rfl, rfl, rfl, rfl, rfl,
      rfl, rfl⟩, rfl, rfl, rfl⟩,
   ⟨_, rfl, ⟨rfl, rfl, rfl, rfl, rfl, rfl, rfl, rfl, rfl, rfl, rfl, rfl, rfl,
      rfl, rfl⟩, rfl, rfl, rfl⟩⟩

/-- C10: `updateHealthGoal` patches every entry whose id matches (not
just the first), keeps the sequence's length and positions, and a patch
that itself carries an id replaces the matched entry's id. -/
theorem updateHealthGoal_patches_all_matches
    (p : UserProfile) (gid : String) (u : PartialHealthGoal) :
    ∃ p2, updateHealthGoal gid u (some p) = some p2 ∧
      p2.healthGoals.length = p.healthGoals.length ∧
      (∀ (i : Nat) (g : HealthGoal), p.healthGoals[i]? = some g →
        p2.healthGoals[i]? = some (if g.id = gid then mergeGoal g u else g)) ∧
      (∀ (i : Nat) (g : HealthGoal) (nid : String),
        p.healthGoals[i]? = some g → g.id = gid → u.id = some nid →
        p2.healthGoals[i]?.map HealthGoal.id = some nid) := by
  refine ⟨_, rfl, by simp, ?_, ?_⟩
  · intro i g hg
    simp only [updateHealthGoal, List.getElem?_map, hg, Option.map_some']
    by_cases h : g.id = gid
    · simp [h]
    · simp [h]
  · intro i g nid hg heq hid
    simp only [updateHealthGoal, List.getElem?_map, hg, Option.map_some']
    simp [heq, mergeGoal, hid]
